import Mathlib

/-!
Verification of the WAPOR acquisition scripts (src/wapor_ingest.py and
src/wapor_python.py) against their natural-language specification.

The scripts are embedded shallowly: every network interaction, printed
line, image-library invocation, file write and pacing sleep becomes an
explicit `Event`; the remote service and the external image library are
modelled by an environment record `Env` supplying the responses the code
reads.  Fallible Python control flow (an uncaught exception propagating
out of a function) is modelled by `PyResult`.
-/

namespace Wapor

/-- Human-visible label plus code of one catalog cube, as read from the
catalog body fields code and caption. -/
structure CubeInfo where
  code : String
  caption : String
  deriving DecidableEq, Repr

/-- Outcome of one invocation of the external image library
(gdal.Translate) on a remote source.  The library is not part of this
repository; it is modelled as either completing the write to the
destination path it was handed, or failing mid-write after having
created a partial file at that destination.  The source passes the final
output path directly to the library (src/wapor_ingest.py line 74 and 77)
with no staging, cleanup handler, or try/except around the call. -/
inductive FetchBehavior where
  | success
  | midWriteFail
  deriving DecidableEq, Repr

/-- One observable step of a script run: an HTTP GET (with the optional
Authorization header value), an HTTP POST (with the optional API-key
header value), a printed line, an invocation of the image library
(destination, source, optional projWin bounding box), the resulting file
state at a path (complete or partial), or a pacing sleep. -/
inductive Event where
  | get (url : String) (auth : Option String)
  | post (url : String) (apiKey : Option String)
  | msg (s : String)
  | translate (dest : String) (src : String) (projWin : Option (List Rat))
  | fileWritten (path : String) (complete : Bool)
  | sleep (seconds : Nat)
  deriving DecidableEq, Repr

/-- The remote service and external-library environment a run is
executed against: HTTP status and token field of the sign-in endpoint,
catalog items, per-cube rasters-listing status and items, per-(cube,
raster) download-resolution status and resolved downloadUrl, and the
behaviour of the image library per source URL. -/
structure Env where
  authStatus : Nat
  accessTokenField : Option String
  cubesItems : List CubeInfo
  rastersStatus : String → Nat
  rastersItems : String → List String
  resolveStatus : String → String → Nat
  downloadUrl : String → String → String
  fetch : String → FetchBehavior

/-- Result of a Python function call: a returned value, or an uncaught
exception propagating to the caller. -/
inductive PyResult (α : Type) where
  | ret (a : α)
  | exc (e : String)
  deriving DecidableEq, Repr

/-- requests' Response.raise_for_status raises HTTPError exactly for
status codes in [400, 600). -/
def isHttpError (status : Nat) : Bool :=
  400 ≤ status && status < 600

/-- Rendering of str(e) for a requests HTTPError: carries the upstream
status code and the request URL (requests formats it as
"<code> ... Error ... for url: <url>"). -/
def httpErrorStr (status : Nat) (url : String) : String :=
  toString status ++ " Error for url: " ++ url

/-- src/wapor_ingest.py line 25: the fixed workspace identifier. -/
def workspace : String := "WAPOR_2"

/-- src/wapor_ingest.py line 26: sign-in endpoint. -/
def authorization_request_url : String :=
  "https://io.apps.fao.org/gismgr/api/v1/iam/sign-in"

/-- src/wapor_ingest.py line 35 (same in wapor_python.py line 124):
public cube-catalog endpoint. -/
def cubes_request_url : String :=
  "https://io.apps.fao.org/gismgr/api/v1/catalog/workspaces/WAPOR_2/cubes"

/-- src/wapor_ingest.py line 45: per-cube rasters-listing endpoint. -/
def rasterid_request_url (cubecode : String) : String :=
  "https://io.apps.fao.org/gismgr/api/v1/catalog/workspaces/WAPOR_2/cubes/"
    ++ cubecode ++ "/rasters"

/-- src/wapor_ingest.py line 61: protected download-resolution
endpoint for one (cube, raster) pair. -/
def tif_request_url (cubecode rasterid : String) : String :=
  "https://io.apps.fao.org/gismgr/api/v1/download/" ++ workspace
    ++ "?requestType=MAPSET_RASTER&cubeCode=" ++ cubecode
    ++ "&rasterId=" ++ rasterid

/-- src/wapor_ingest.py line 30: the Authorization header value built
from the module-level access token. -/
def bearerHeader (token : String) : String := "Bearer " ++ token

/-- src/wapor_ingest.py line 70: output path for one raster,
os.path.join(output_folder_name, rasterid + ".tif"); the path join is
modelled with a "/" separator. -/
def output_filepath (folder rasterid : String) : String :=
  folder ++ "/" ++ rasterid ++ ".tif"

/-- src/wapor_ingest.py lines 26-29, module level: POST the sign-in
request, then read json()["response"]["accessToken"] directly.  No
raise_for_status is called and the HTTP status is never inspected; a
body without the token field raises KeyError. -/
def ingest_access_token (env : Env) (api_token : String) :
    List Event × PyResult String :=
  ([Event.post authorization_request_url (some api_token)],
   match env.accessTokenField with
   | some tok => PyResult.ret tok
   | none => PyResult.exc "KeyError: accessToken")

/-- src/wapor_python.py lines 46-62: POST the sign-in request, call
raise_for_status (HTTPError on a non-success status), then read
json()["response"]["accessToken"] (KeyError when absent). -/
def python_access_token (env : Env) (api_token : String) :
    List Event × PyResult String :=
  ([Event.post authorization_request_url (some api_token)],
   if isHttpError env.authStatus then
     PyResult.exc (httpErrorStr env.authStatus authorization_request_url)
   else
     match env.accessTokenField with
     | some tok => PyResult.ret tok
     | none => PyResult.exc "KeyError: accessToken")

/-- The line list_cubes prints for one catalog item,
print(x["caption"], ' : ', x["code"]) at src/wapor_ingest.py line 40. -/
def cubeLine (c : CubeInfo) : String := c.caption ++ " : " ++ c.code

/-- src/wapor_ingest.py lines 34-40: GET the public cube catalog with no
headers, print a header line and one caption/code line per item, and
fall off the end of the function (Python returns None, modelled as the
`none` component of the result). -/
def list_cubes (env : Env) : List Event × Option (List CubeInfo) :=
  (Event.get cubes_request_url none ::
     Event.msg "Please select appropriate code from list:" ::
     env.cubesItems.map (fun c => Event.msg (cubeLine c)),
   none)

/-- src/wapor_ingest.py lines 58-81, the per-raster loop of
download_data.  For each rasterId in listing order: print, GET the
protected resolution endpoint with the bearer header; on HTTPError
return "Error: " + str(e) immediately (aborting the rest of the list);
otherwise invoke the image library on the final output path with
projWin set to the bounding box exactly when coverage is true, then
sleep 10 seconds and continue.  (The numeric rendering of the box in the
printed line is elided; the box itself is carried by the translate
event.)  A mid-write library failure propagates
as an uncaught exception, leaving the partial file at the destination.
After the last item the loop returns "Exports Done". -/
def processRasters (env : Env) (token cubecode folder : String)
    (coverage : Bool) (bounding_box : List Rat) :
    List String → List Event × PyResult String
  | [] => ([], PyResult.ret "Exports Done")
  | rasterid :: rest =>
    let url := tif_request_url cubecode rasterid
    let status := env.resolveStatus cubecode rasterid
    if isHttpError status then
      ([Event.msg ("Exporting: " ++ rasterid),
        Event.get url (some (bearerHeader token))],
       PyResult.ret ("Error: " ++ httpErrorStr status url))
    else
      let tif_url := env.downloadUrl cubecode rasterid
      let dest := output_filepath folder rasterid
      let src := "/vsicurl/" ++ tif_url
      let covLine : String :=
        if coverage then "Exporting for bounding box:"
        else "Exporting total data coverage"
      let projWin : Option (List Rat) :=
        if coverage then some bounding_box else none
      match env.fetch tif_url with
      | FetchBehavior.midWriteFail =>
          ([Event.msg ("Exporting: " ++ rasterid),
            Event.get url (some (bearerHeader token)),
            Event.msg covLine,
            Event.translate dest src projWin,
            Event.fileWritten dest false],
           PyResult.exc "FetchError")
      | FetchBehavior.success =>
          let r := processRasters env token cubecode folder coverage
            bounding_box rest
          (Event.msg ("Exporting: " ++ rasterid) ::
             Event.get url (some (bearerHeader token)) ::
             Event.msg covLine ::
             Event.translate dest src projWin ::
             Event.fileWritten dest true ::
             Event.sleep 10 :: r.1,
           r.2)

/-- src/wapor_ingest.py lines 43-81: download_data.  Print the checking
line, GET the rasters listing (public, no header); on HTTPError run
list_cubes as a diagnostic and return "Error: " + str(e); otherwise run
the per-raster loop on the listed items.  The bearer token is the
module-level access token, passed here explicitly. -/
def download_data (env : Env) (token cubecode output_folder_name : String)
    (coverage : Bool) (bounding_box : List Rat) :
    List Event × PyResult String :=
  let url := rasterid_request_url cubecode
  let status := env.rastersStatus cubecode
  if isHttpError status then
    (Event.msg ("Checking available datasets for: " ++ cubecode) ::
       Event.get url none :: (list_cubes env).1,
     PyResult.ret ("Error: " ++ httpErrorStr status url))
  else
    let r := processRasters env token cubecode output_folder_name coverage
      bounding_box (env.rastersItems cubecode)
    (Event.msg ("Checking available datasets for: " ++ cubecode) ::
       Event.get url none :: r.1,
     r.2)

/-- src/wapor_ingest.py line 43 default / line 102: the bounding box
[30.0, 30.5, 31.5, 28.5] (left, top, right, bottom). -/
def b_box : List Rat := [30, 30.5, 31.5, 28.5]

/-- src/wapor_ingest.py line 101: the driver's coverage flag, documented
in the lines 95-100 docstring as "If get_full_coverage is True then it
will download whole scene". -/
def get_full_coverage : Bool := true

/-- src/wapor_ingest.py line 93: the driver's cube code. -/
def ccode : String := "L1_AETI_A"

/-- src/wapor_ingest.py line 90: the driver's output folder (path
separator modelled as "/"). -/
def outfolder : String := "D:/output_Wapor_folder/test_folder"

/-- src/wapor_ingest.py line 104: the driver invocation
download_data(cubecode=ccode, coverage=get_full_coverage,
bounding_box=b_box, output_folder_name=outfolder). -/
def main_run (env : Env) (token : String) : List Event × PyResult String :=
  download_data env token ccode outfolder get_full_coverage b_box

/-- The (path, complete?) pairs of file states produced by a run, in
order. -/
def writtenFiles : List Event → List (String × Bool)
  | [] => []
  | Event.fileWritten p b :: es => (p, b) :: writtenFiles es
  | Event.get _ _ :: es => writtenFiles es
  | Event.post _ _ :: es => writtenFiles es
  | Event.msg _ :: es => writtenFiles es
  | Event.translate _ _ _ :: es => writtenFiles es
  | Event.sleep _ :: es => writtenFiles es

/-- Number of download-resolution calls in a trace: the GETs carrying an
Authorization header (catalog GETs carry none). -/
def resolveCalls : List Event → Nat
  | [] => 0
  | Event.get _ (some _) :: es => resolveCalls es + 1
  | Event.get _ none :: es => resolveCalls es
  | Event.post _ _ :: es => resolveCalls es
  | Event.msg _ :: es => resolveCalls es
  | Event.translate _ _ _ :: es => resolveCalls es
  | Event.fileWritten _ _ :: es => resolveCalls es
  | Event.sleep _ :: es => resolveCalls es

/-- Final file state a trace leaves at path p: some true for a complete
file, some false for a partial one, none when nothing was written
there. -/
def lastWriteAt (p : String) : List Event → Option Bool
  | [] => none
  | e :: es =>
    match lastWriteAt p es with
    | some b => some b
    | none =>
      match e with
      | Event.fileWritten q b => if q = p then some b else none
      | _ => none

/-- True when every complete file write in the trace is immediately
followed by a 10-second pacing sleep. -/
def pacedB : List Event → Bool
  | [] => true
  | e :: rest =>
    match e with
    | Event.fileWritten _ true =>
      (match rest with
       | Event.sleep 10 :: _ => true
       | _ => false) && pacedB rest
    | _ => pacedB rest

/-- True when every sleep in the trace is exactly 10 seconds. -/
def sleepsAreTen : List Event → Bool
  | [] => true
  | Event.sleep n :: es => (n == 10) && sleepsAreTen es
  | Event.get _ _ :: es => sleepsAreTen es
  | Event.post _ _ :: es => sleepsAreTen es
  | Event.msg _ :: es => sleepsAreTen es
  | Event.translate _ _ _ :: es => sleepsAreTen es
  | Event.fileWritten _ _ :: es => sleepsAreTen es

/-- The projWin boxes of the windowed image-library invocations in a
trace, in order. -/
def windowedBoxes : List Event → List (List Rat)
  | [] => []
  | Event.translate _ _ (some box) :: es => box :: windowedBoxes es
  | Event.translate _ _ none :: es => windowedBoxes es
  | Event.get _ _ :: es => windowedBoxes es
  | Event.post _ _ :: es => windowedBoxes es
  | Event.msg _ :: es => windowedBoxes es
  | Event.fileWritten _ _ :: es => windowedBoxes es
  | Event.sleep _ :: es => windowedBoxes es

/-- Number of full-scene (projWin-free) image-library invocations in a
trace. -/
def fullTranslates : List Event → Nat
  | [] => 0
  | Event.translate _ _ none :: es => fullTranslates es + 1
  | Event.translate _ _ (some _) :: es => fullTranslates es
  | Event.get _ _ :: es => fullTranslates es
  | Event.post _ _ :: es => fullTranslates es
  | Event.msg _ :: es => fullTranslates es
  | Event.fileWritten _ _ :: es => fullTranslates es
  | Event.sleep _ :: es => fullTranslates es

/-- A small concrete catalog used as a test fixture. -/
def sampleCatalog : List CubeInfo :=
  [CubeInfo.mk "L1_AETI_A" "Actual EvapoTranspiration and Interception (Annual)",
   CubeInfo.mk "L1_NPP_D" "Net Primary Production (Dekadal)"]

/-- A fully healthy test environment: sign-in succeeds, the catalog has
two cubes, cube L1_AETI_A lists two rasters, every other cube code lists
none, the unknown code "NOPE" is rejected with 404, every resolution
succeeds and every fetch completes. -/
def envOk : Env :=
  { authStatus := 200
    accessTokenField := some "tok"
    cubesItems := sampleCatalog
    rastersStatus := fun c => if c = "NOPE" then 404 else 200
    rastersItems := fun c =>
      if c = "L1_AETI_A" then ["L1_AETI_16", "L1_AETI_17"] else []
    resolveStatus := fun _ _ => 200
    downloadUrl := fun c r => "https://storage.example/" ++ c ++ "/" ++ r ++ ".tif"
    fetch := fun _ => FetchBehavior.success }

/-- Like envOk, but download resolution of raster L1_AETI_16 fails with
HTTP 500 while raster L1_AETI_17 would resolve fine. -/
def envResolveFail : Env :=
  { envOk with
    resolveStatus := fun _ r => if r = "L1_AETI_16" then 500 else 200 }

/-- Like envOk, but the sign-in endpoint answers with status 500 while
its body still carries an accessToken field. -/
def envAuthOdd : Env :=
  { envOk with authStatus := 500 }

/-- Like envOk, but every image-library fetch fails mid-write. -/
def envFetchFail : Env :=
  { envOk with fetch := fun _ => FetchBehavior.midWriteFail }

/-- A bounding box whose west edge (31.5) lies east of its east edge
(30.0), i.e. an invalid box in the sense of the specification. -/
def invalid_b_box : List Rat := [31.5, 30.5, 30.0, 28.5]

/-- The per-raster loop under all-success responses: it writes exactly
one complete file per listed raster, at folder/rasterId.tif, in listing
order, and returns "Exports Done". -/
theorem processRasters_all_success (env : Env) (token cubecode folder : String)
    (cov : Bool) (bbox : List Rat) (rs : List String)
    (hres : ∀ r ∈ rs, isHttpError (env.resolveStatus cubecode r) = false)
    (hfetch : ∀ r ∈ rs,
      env.fetch (env.downloadUrl cubecode r) = FetchBehavior.success) :
    writtenFiles (processRasters env token cubecode folder cov bbox rs).1 =
      rs.map (fun r => (output_filepath folder r, true)) ∧
    (processRasters env token cubecode folder cov bbox rs).2 =
      PyResult.ret "Exports Done" := by
  induction rs with
  | nil => exact ⟨rfl, rfl⟩
  | cons r rest ih =>
    have h1 : isHttpError (env.resolveStatus cubecode r) = false :=
      hres r (List.mem_cons_self r rest)
    have h2 : env.fetch (env.downloadUrl cubecode r) = FetchBehavior.success :=
      hfetch r (List.mem_cons_self r rest)
    have ih2 := ih (fun x hx => hres x (List.mem_cons_of_mem r hx))
      (fun x hx => hfetch x (List.mem_cons_of_mem r hx))
    simp only [processRasters, h1, h2, Bool.false_eq_true, if_false,
      writtenFiles, List.map_cons]
    exact ⟨by rw [ih2.1], ih2.2⟩

/-- The per-raster loop on pre ++ bad :: post, where every raster in pre
resolves and fetches successfully and bad's resolution fails: the loop
returns the bare error string for bad and performs exactly
pre.length + 1 resolution calls (post is never attempted). -/
theorem processRasters_abort (env : Env) (token cubecode folder : String)
    (cov : Bool) (bbox : List Rat) (pre : List String) (bad : String)
    (post : List String)
    (hpre : ∀ r ∈ pre, isHttpError (env.resolveStatus cubecode r) = false ∧
      env.fetch (env.downloadUrl cubecode r) = FetchBehavior.success)
    (hbad : isHttpError (env.resolveStatus cubecode bad) = true) :
    (processRasters env token cubecode folder cov bbox (pre ++ bad :: post)).2 =
      PyResult.ret ("Error: " ++ httpErrorStr (env.resolveStatus cubecode bad)
        (tif_request_url cubecode bad)) ∧
    resolveCalls
      (processRasters env token cubecode folder cov bbox (pre ++ bad :: post)).1 =
      pre.length + 1 := by
  induction pre with
  | nil =>
    simp only [List.nil_append, processRasters, hbad, if_true, resolveCalls,
      List.length_nil]
    exact ⟨trivial, trivial⟩
  | cons r rest ih =>
    have h1 := (hpre r (List.mem_cons_self r rest)).1
    have h2 := (hpre r (List.mem_cons_self r rest)).2
    have ih2 := ih (fun x hx => hpre x (List.mem_cons_of_mem r hx))
    simp only [List.cons_append, List.append_eq, processRasters, h1, h2,
      Bool.false_eq_true, if_false, resolveCalls, List.length_cons]
    exact ⟨ih2.1, by rw [ih2.2]⟩

/-- A list of printed lines contains no file writes. -/
theorem writtenFiles_map_msg (f : CubeInfo → String) (l : List CubeInfo) :
    writtenFiles (l.map (fun c => Event.msg (f c))) = [] := by
  induction l with
  | nil => rfl
  | cons c t ih => simpa [writtenFiles] using ih

/-- The success return string is never an error return string. -/
theorem exports_ne_error (s : String) : "Exports Done" ≠ "Error: " ++ s := by
  intro h
  have h2 := congrArg String.data h
  rw [String.data_append] at h2
  have e1 : ("Exports Done" : String).data =
      ['E', 'x', 'p', 'o', 'r', 't', 's', ' ', 'D', 'o', 'n', 'e'] := rfl
  have e2 : ("Error: " : String).data = ['E', 'r', 'r', 'o', 'r', ':', ' '] := rfl
  rw [e1, e2] at h2
  simp only [List.cons_append, List.cons.injEq] at h2
  exact absurd h2.2.1 (by decide)

/-- Claim C1 is false on the code: for a cube listing two rasters whose
first download resolution fails with HTTP 500, download_data performs
only one resolution call, returns the bare error string, and never
attempts the second raster — there is no per-item report with two
entries. -/
theorem C1_counterexample :
    (envResolveFail.rastersItems "L1_AETI_A").length = 2 ∧
    resolveCalls
      (download_data envResolveFail "tok" "L1_AETI_A" "out" false b_box).1 = 1 ∧
    (download_data envResolveFail "tok" "L1_AETI_A" "out" false b_box).2 =
      PyResult.ret ("Error: " ++
        httpErrorStr 500 (tif_request_url "L1_AETI_A" "L1_AETI_16")) :=
  ⟨rfl, rfl, rfl⟩

/-- Claim C1 (amended): when the download-resolution call for item k
fails with a non-success HTTP status, download_data immediately returns
the bare error string for item k; items k+1..N are never attempted
(exactly k resolution calls are made) and no per-item outcome report is
produced. -/
theorem C1_first_failure_aborts (env : Env) (token cubecode folder : String)
    (cov : Bool) (bbox : List Rat) (pre : List String) (bad : String)
    (post : List String)
    (hlist : isHttpError (env.rastersStatus cubecode) = false)
    (hitems : env.rastersItems cubecode = pre ++ bad :: post)
    (hpre : ∀ r ∈ pre, isHttpError (env.resolveStatus cubecode r) = false ∧
      env.fetch (env.downloadUrl cubecode r) = FetchBehavior.success)
    (hbad : isHttpError (env.resolveStatus cubecode bad) = true) :
    (download_data env token cubecode folder cov bbox).2 =
      PyResult.ret ("Error: " ++ httpErrorStr (env.resolveStatus cubecode bad)
        (tif_request_url cubecode bad)) ∧
    resolveCalls (download_data env token cubecode folder cov bbox).1 =
      pre.length + 1 := by
  have h := processRasters_abort env token cubecode folder cov bbox pre bad post
    hpre hbad
  simp only [download_data, hlist, Bool.false_eq_true, if_false, hitems,
    resolveCalls]
  exact ⟨h.1, h.2⟩

/-- Witness for the amended claim C1 at a concrete environment: the
first of two rasters fails resolution, one resolution call is made and
the error string is returned. -/
theorem C1_first_failure_aborts_witness :
    (download_data envResolveFail "tok" "L1_AETI_A" "out" false b_box).2 =
      PyResult.ret ("Error: " ++
        httpErrorStr (envResolveFail.resolveStatus "L1_AETI_A" "L1_AETI_16")
          (tif_request_url "L1_AETI_A" "L1_AETI_16")) ∧
    resolveCalls
      (download_data envResolveFail "tok" "L1_AETI_A" "out" false b_box).1 =
      ([] : List String).length + 1 :=
  C1_first_failure_aborts envResolveFail "tok" "L1_AETI_A" "out" false b_box
    [] "L1_AETI_16" ["L1_AETI_17"] rfl rfl
    (fun r hr => absurd hr (List.not_mem_nil r)) rfl

/-- Claim C3 is false on src/wapor_ingest.py: its module-level
authentication never inspects the HTTP status, so with the identity
endpoint answering status 500 whose body still carries an accessToken
field, a bearer token is produced — contradicting "a bearer token if and
only if the identity endpoint returns a success status". -/
theorem C3_counterexample :
    isHttpError envAuthOdd.authStatus = true ∧
    (ingest_access_token envAuthOdd "key").2 = PyResult.ret "tok" :=
  ⟨rfl, rfl⟩

/-- Claim C3 (amended): wapor_ingest's authentication returns a token
iff the response body carries the accessToken field, regardless of HTTP
status (failures surface as a raw KeyError, not a structured AuthError);
wapor_python's authentication, which calls raise_for_status, returns a
token iff the status is a success and the body carries the field. -/
theorem C3_auth_token_conditions (env : Env) (key t : String) :
    ((ingest_access_token env key).2 = PyResult.ret t ↔
      env.accessTokenField = some t) ∧
    ((python_access_token env key).2 = PyResult.ret t ↔
      isHttpError env.authStatus = false ∧ env.accessTokenField = some t) := by
  constructor
  · unfold ingest_access_token
    cases h : env.accessTokenField with
    | none => simp
    | some a => simp
  · unfold python_access_token
    cases hs : isHttpError env.authStatus with
    | false =>
      cases h : env.accessTokenField with
      | none => simp
      | some a => simp
    | true => simp [hs]

/-- Claim C4: for a cube code rejected by the rasters-listing endpoint,
download_data returns (not raises) an error string carrying the upstream
status and URL, prints the catalog's caption/code pairs as a diagnostic,
and writes zero output files. -/
theorem C4_unknown_cube (env : Env) (token cubecode folder : String)
    (cov : Bool) (bbox : List Rat)
    (h : isHttpError (env.rastersStatus cubecode) = true) :
    (download_data env token cubecode folder cov bbox).2 =
      PyResult.ret ("Error: " ++ httpErrorStr (env.rastersStatus cubecode)
        (rasterid_request_url cubecode)) ∧
    (∀ c ∈ env.cubesItems,
      Event.msg (cubeLine c) ∈ (download_data env token cubecode folder cov bbox).1) ∧
    writtenFiles (download_data env token cubecode folder cov bbox).1 = [] := by
  simp only [download_data, h, if_true]
  refine ⟨trivial, ?_, ?_⟩
  · intro c hc
    simp only [list_cubes, List.mem_cons, List.mem_map]
    right; right; right; right
    exact ⟨c, hc, rfl⟩
  · simp only [list_cubes, writtenFiles]
    exact writtenFiles_map_msg cubeLine env.cubesItems

/-- Witness for C4 at the concrete invalid cube code "NOPE" rejected
with HTTP 404 against the sample catalog. -/
theorem C4_unknown_cube_witness :
    (download_data envOk "tok" "NOPE" "out" false b_box).2 =
      PyResult.ret ("Error: " ++ httpErrorStr (envOk.rastersStatus "NOPE")
        (rasterid_request_url "NOPE")) ∧
    (∀ c ∈ envOk.cubesItems,
      Event.msg (cubeLine c) ∈ (download_data envOk "tok" "NOPE" "out" false b_box).1) ∧
    writtenFiles (download_data envOk "tok" "NOPE" "out" false b_box).1 = [] :=
  C4_unknown_cube envOk "tok" "NOPE" "out" false b_box rfl

/-- Claim C5: for a valid cube whose raster listing is empty,
download_data makes no resolution call, writes no file, and returns the
success string "Exports Done", which is never an error return. -/
theorem C5_empty_listing (env : Env) (token cubecode folder : String)
    (cov : Bool) (bbox : List Rat)
    (h1 : isHttpError (env.rastersStatus cubecode) = false)
    (h2 : env.rastersItems cubecode = []) :
    (download_data env token cubecode folder cov bbox).2 =
      PyResult.ret "Exports Done" ∧
    writtenFiles (download_data env token cubecode folder cov bbox).1 = [] ∧
    resolveCalls (download_data env token cubecode folder cov bbox).1 = 0 ∧
    ∀ s : String, (download_data env token cubecode folder cov bbox).2 ≠
      PyResult.ret ("Error: " ++ s) := by
  simp only [download_data, h1, Bool.false_eq_true, if_false, h2,
    processRasters, writtenFiles, resolveCalls]
  refine ⟨trivial, trivial, trivial, ?_⟩
  intro s hcontra
  exact exports_ne_error s (PyResult.ret.inj hcontra)

/-- Claim C2 is contradicted by the driver: the __main__ docstring
(src/wapor_ingest.py lines 95-100) says get_full_coverage = True
downloads the whole scene, but passing it as the coverage flag makes
download_data clip every raster to the bounding box: the shipped run
(flag true) issues two windowed image-library invocations with
projWin = b_box and zero full-scene invocations, while the flag value
false is the one that yields full-scene invocations. -/
theorem C2_driver_flag_inverted :
    get_full_coverage = true ∧
    windowedBoxes (main_run envOk "tok").1 = [b_box, b_box] ∧
    fullTranslates (main_run envOk "tok").1 = 0 ∧
    windowedBoxes (download_data envOk "tok" ccode outfolder false b_box).1 = [] ∧
    fullTranslates (download_data envOk "tok" ccode outfolder false b_box).1 = 2 :=
  ⟨rfl, rfl, rfl, rfl, rfl⟩

/-- Witness for C5: cube L1_NPP_D answers 200 with an empty raster list
in the sample environment. -/
theorem C5_empty_listing_witness :
    (download_data envOk "tok" "L1_NPP_D" "out" false b_box).2 =
      PyResult.ret "Exports Done" ∧
    writtenFiles (download_data envOk "tok" "L1_NPP_D" "out" false b_box).1 = [] ∧
    resolveCalls (download_data envOk "tok" "L1_NPP_D" "out" false b_box).1 = 0 ∧
    ∀ s : String, (download_data envOk "tok" "L1_NPP_D" "out" false b_box).2 ≠
      PyResult.ret ("Error: " ++ s) :=
  C5_empty_listing envOk "tok" "L1_NPP_D" "out" false b_box rfl rfl

/-- Claim C6 is false on the code: when the image-library fetch of a
raster fails mid-write, the final state at the destination path is a
partial (not complete) file — the destination is neither complete nor
removed — and the exception aborts download_data. -/
theorem C6_counterexample :
    lastWriteAt (output_filepath "out" "L1_AETI_16")
      (download_data envFetchFail "tok" "L1_AETI_A" "out" false b_box).1 =
      some false ∧
    (download_data envFetchFail "tok" "L1_AETI_A" "out" false b_box).2 =
      PyResult.exc "FetchError" :=
  ⟨rfl, rfl⟩

/-- Claim C6 (amended): the code passes the final destination path
directly to the image library with no staging or cleanup; when a fetch
fails mid-write, the partial file remains at the destination path and
the failure propagates as an uncaught exception that aborts the whole
batch. -/
theorem C6_partial_file_left (env : Env) (token cubecode folder : String)
    (cov : Bool) (bbox : List Rat) (r : String) (rest : List String)
    (hlist : isHttpError (env.rastersStatus cubecode) = false)
    (hitems : env.rastersItems cubecode = r :: rest)
    (hres : isHttpError (env.resolveStatus cubecode r) = false)
    (hfetch : env.fetch (env.downloadUrl cubecode r) =
      FetchBehavior.midWriteFail) :
    lastWriteAt (output_filepath folder r)
      (download_data env token cubecode folder cov bbox).1 = some false ∧
    (download_data env token cubecode folder cov bbox).2 =
      PyResult.exc "FetchError" := by
  simp only [download_data, hlist, Bool.false_eq_true, if_false, hitems,
    processRasters, hres, hfetch, lastWriteAt]
  simp

/-- Witness for the amended claim C6 at the concrete failing fetch of
raster L1_AETI_16. -/
theorem C6_partial_file_left_witness :
    lastWriteAt (output_filepath "out" "L1_AETI_16")
      (download_data envFetchFail "tok" "L1_AETI_A" "out" false b_box).1 =
      some false ∧
    (download_data envFetchFail "tok" "L1_AETI_A" "out" false b_box).2 =
      PyResult.exc "FetchError" :=
  C6_partial_file_left envFetchFail "tok" "L1_AETI_A" "out" false b_box
    "L1_AETI_16" ["L1_AETI_17"] rfl rfl rfl rfl

/-- Claim C7 is false on the code: with a bounding box whose west edge
(31.5) lies at or east of its east edge (30.0), download_data performs
no validation and no ConfigurationError exists — the rasters-listing
network call is issued and the run completes normally. -/
theorem C7_counterexample :
    invalid_b_box = [31.5, 30.5, 30.0, 28.5] ∧
    ((30.0 : Rat) ≤ 31.5) ∧
    Event.get (rasterid_request_url "L1_AETI_A") none ∈
      (download_data envOk "tok" "L1_AETI_A" "out" true invalid_b_box).1 ∧
    (download_data envOk "tok" "L1_AETI_A" "out" true invalid_b_box).2 =
      PyResult.ret "Exports Done" := by
  refine ⟨rfl, by norm_num, ?_, rfl⟩
  exact List.mem_cons_of_mem _ (List.mem_cons_self _ _)

/-- Claim C7 (amended): download_data validates neither the bounding
box nor any other configuration; even when the box's west edge lies at
or east of its east edge, the rasters-listing network request is issued
(there is no fail-fast path and no ConfigurationError). -/
theorem C7_no_validation (env : Env) (token cubecode folder : String)
    (cov : Bool) (bbox : List Rat) (w n e s : Rat)
    (hbox : bbox = [w, n, e, s]) (hinv : e ≤ w) :
    Event.get (rasterid_request_url cubecode) none ∈
      (download_data env token cubecode folder cov bbox).1 := by
  cases h : isHttpError (env.rastersStatus cubecode) with
  | true =>
    simp only [download_data, h, if_true]
    exact List.mem_cons_of_mem _ (List.mem_cons_self _ _)
  | false =>
    simp only [download_data, h, Bool.false_eq_true, if_false]
    exact List.mem_cons_of_mem _ (List.mem_cons_self _ _)

/-- Witness for the amended claim C7 at the concrete inverted box
[31.5, 30.5, 30.0, 28.5]. -/
theorem C7_no_validation_witness :
    Event.get (rasterid_request_url "L1_AETI_A") none ∈
      (download_data envOk "tok" "L1_AETI_A" "out" true invalid_b_box).1 :=
  C7_no_validation envOk "tok" "L1_AETI_A" "out" true invalid_b_box
    31.5 30.5 30.0 28.5 rfl (by norm_num)

/-- Claim C8 is false on the code: list_cubes does not return a sequence
of cube descriptors — it prints them and returns None, even for a
non-empty catalog. -/
theorem C8_counterexample :
    envOk.cubesItems ≠ [] ∧ (list_cubes envOk).2 = none :=
  ⟨by decide, rfl⟩

/-- Claim C8 (amended): list_cubes requires no token (its only GET
carries no Authorization header) and enumerates the finite catalog, but
it emits the caption/code pairs as printed lines and returns None rather
than a sequence; the same printed lines are what download_data emits as
the diagnostic when a cube code is rejected. -/
theorem C8_prints_catalog (env : Env) (c : CubeInfo) (hc : c ∈ env.cubesItems)
    (token cubecode folder : String) (cov : Bool) (bbox : List Rat)
    (hfail : isHttpError (env.rastersStatus cubecode) = true) :
    (list_cubes env).2 = none ∧
    (∀ e ∈ (list_cubes env).1, ∀ url a, e = Event.get url a → a = none) ∧
    Event.msg (cubeLine c) ∈ (list_cubes env).1 ∧
    Event.msg (cubeLine c) ∈
      (download_data env token cubecode folder cov bbox).1 := by
  refine ⟨rfl, ?_, ?_, ?_⟩
  · intro e he url a hea
    simp only [list_cubes, List.mem_cons, List.mem_map] at he
    rcases he with rfl | rfl | ⟨x, _, rfl⟩
    · injection hea with h1 h2
      exact h2.symm
    · exact Event.noConfusion hea
    · exact Event.noConfusion hea
  · simp only [list_cubes, List.mem_cons, List.mem_map]
    right; right
    exact ⟨c, hc, rfl⟩
  · simp only [download_data, hfail, if_true, list_cubes, List.mem_cons,
      List.mem_map]
    right; right; right; right
    exact ⟨c, hc, rfl⟩

/-- Witness for the amended claim C8 at the sample catalog, with the
invalid cube code "NOPE" rejected with HTTP 404. -/
theorem C8_prints_catalog_witness :
    (list_cubes envOk).2 = none ∧
    (∀ e ∈ (list_cubes envOk).1, ∀ url a, e = Event.get url a → a = none) ∧
    Event.msg (cubeLine (CubeInfo.mk "L1_AETI_A"
      "Actual EvapoTranspiration and Interception (Annual)")) ∈
      (list_cubes envOk).1 ∧
    Event.msg (cubeLine (CubeInfo.mk "L1_AETI_A"
      "Actual EvapoTranspiration and Interception (Annual)")) ∈
      (download_data envOk "tok" "NOPE" "out" false b_box).1 :=
  C8_prints_catalog envOk
    (CubeInfo.mk "L1_AETI_A" "Actual EvapoTranspiration and Interception (Annual)")
    (by decide) "tok" "NOPE" "out" false b_box rfl

/-- Claim C9: when every listed raster resolves and fetches
successfully, the run writes exactly one complete file per raster, at
folder/rasterId.tif, in listing order, and returns "Exports Done". -/
theorem C9_one_file_per_raster (env : Env) (token cubecode folder : String)
    (cov : Bool) (bbox : List Rat)
    (hlist : isHttpError (env.rastersStatus cubecode) = false)
    (hres : ∀ r ∈ env.rastersItems cubecode,
      isHttpError (env.resolveStatus cubecode r) = false)
    (hfetch : ∀ r ∈ env.rastersItems cubecode,
      env.fetch (env.downloadUrl cubecode r) = FetchBehavior.success) :
    writtenFiles (download_data env token cubecode folder cov bbox).1 =
      (env.rastersItems cubecode).map (fun r => (output_filepath folder r, true)) ∧
    (download_data env token cubecode folder cov bbox).2 =
      PyResult.ret "Exports Done" := by
  have h := processRasters_all_success env token cubecode folder cov bbox
    (env.rastersItems cubecode) hres hfetch
  simp only [download_data, hlist, Bool.false_eq_true, if_false, writtenFiles]
  exact ⟨h.1, h.2⟩

/-- Witness for C9, the specification's scenario: cube L1_AETI_A with
rasters L1_AETI_16 and L1_AETI_17, windowed to b_box, yields exactly the
two complete files out/L1_AETI_16.tif and out/L1_AETI_17.tif. -/
theorem C9_one_file_per_raster_witness :
    writtenFiles (download_data envOk "tok" "L1_AETI_A" "out" true b_box).1 =
      [("out/L1_AETI_16.tif", true), ("out/L1_AETI_17.tif", true)] ∧
    (download_data envOk "tok" "L1_AETI_A" "out" true b_box).2 =
      PyResult.ret "Exports Done" := by
  have h := C9_one_file_per_raster envOk "tok" "L1_AETI_A" "out" true b_box
    rfl (by decide) (by decide)
  exact ⟨h.1.trans (by decide), h.2⟩

/-- Printed catalog lines contain no file writes and no sleeps, so they
satisfy both pacing checks. -/
theorem pacedB_map_msg (f : CubeInfo → String) (l : List CubeInfo) :
    pacedB (l.map (fun c => Event.msg (f c))) = true ∧
    sleepsAreTen (l.map (fun c => Event.msg (f c))) = true := by
  induction l with
  | nil => exact ⟨rfl, rfl⟩
  | cons c t ih => simpa [pacedB, sleepsAreTen] using ih

/-- The per-raster loop satisfies both pacing checks: every complete
fetch is immediately followed by a sleep, and every sleep is 10
seconds. -/
theorem pacedB_processRasters (env : Env) (token cubecode folder : String)
    (cov : Bool) (bbox : List Rat) (rs : List String) :
    pacedB (processRasters env token cubecode folder cov bbox rs).1 = true ∧
    sleepsAreTen (processRasters env token cubecode folder cov bbox rs).1 =
      true := by
  induction rs with
  | nil => exact ⟨rfl, rfl⟩
  | cons r rest ih =>
    cases h : isHttpError (env.resolveStatus cubecode r) with
    | true => simp [processRasters, h, pacedB, sleepsAreTen]
    | false =>
      cases hf : env.fetch (env.downloadUrl cubecode r) with
      | midWriteFail => simp [processRasters, h, hf, pacedB, sleepsAreTen]
      | success =>
        simpa [processRasters, h, hf, pacedB, sleepsAreTen] using ih

/-- Claim C10: in every run of download_data, each completed raster
fetch is immediately followed by a pacing sleep, every pacing sleep is
exactly 10 time units, and this holds uniformly over the batch in
enumeration order. -/
theorem C10_pacing_after_each_fetch (env : Env)
    (token cubecode folder : String) (cov : Bool) (bbox : List Rat) :
    pacedB (download_data env token cubecode folder cov bbox).1 = true ∧
    sleepsAreTen (download_data env token cubecode folder cov bbox).1 =
      true := by
  cases h : isHttpError (env.rastersStatus cubecode) with
  | true =>
    have hm := pacedB_map_msg cubeLine env.cubesItems
    simp [download_data, h, list_cubes, pacedB, sleepsAreTen, hm.1, hm.2]
  | false =>
    have hp := pacedB_processRasters env token cubecode folder cov bbox
      (env.rastersItems cubecode)
    simpa [download_data, h, pacedB, sleepsAreTen] using hp

end Wapor
